import Mathlib

/-!
Verification of the raspicam Go package: a shallow embedding of the
parameter-builder (Camera/Preview/Still/StillYUV/Vid renderings) and of the
Capture runner's event protocol, with theorems checking the specification's
claims against the code.

Modelling conventions:
* Go `int`/`int64` and `time.Duration` (int64 nanoseconds) are modelled as
  `Int`; no wrap-around arithmetic occurs in the modelled code (only equality
  tests, truncating division and decimal printing), so unbounded integers are
  faithful on every in-range input.
* Go `uint32` is modelled as `Nat` (only printed and compared).
* Go `float64` fields (FloatRect) are modelled as `Rat`: the code only
  compares them for equality and prints them with the verb percent-v; the
  printer below agrees with Go on the short decimal values the package uses.
* A Go array/slice index out of range is a panic; a lookup that can panic is
  modelled with `Option` (`none` = panic), and a function whose execution can
  panic propagates the `none`.
-/

/-- strconv.Itoa / strconv.FormatInt(n, 10) and the Sprintf verb percent-v on
integers: decimal, with a leading minus sign for negatives. -/
def goItoa (n : Int) : String := toString n

/-- Sprintf verb percent-v on a uint32 value (modelled as Nat): decimal. -/
def goUtoa (n : Nat) : String := toString n

/-- Decimal digits of the fractional part r/d (0 < r < d), most significant
first; fuel bounds the expansion (ample for every value the package prints). -/
def fracDigits : Nat → Nat → Nat → List Char
  | 0, _, _ => []
  | fuel + 1, r, d =>
    if r = 0 then []
    else Nat.digitChar (r * 10 / d) :: fracDigits fuel (r * 10 % d) d

/-- Sprintf verb percent-v on a float64 value, modelled on exact rationals:
Go prints the shortest decimal; on the terminating decimals used by the
package this is the plain decimal expansion, with no ".0" for integers. -/
def goFloatV (q : Rat) : String :=
  let sign := if q.num < 0 then "-" else ""
  let n := q.num.natAbs
  let ip := n / q.den
  let fr := n % q.den
  if fr = 0 then sign ++ Nat.repr ip
  else sign ++ Nat.repr ip ++ "." ++ String.mk (fracDigits 20 fr q.den)

/-- Truncating division toward zero, as Go's `/` on int64. -/
def goQuo (a b : Int) : Int := Int.tdiv a b

/-- Nanoseconds in time.Millisecond. -/
def timeMillisecond : Int := 1000000
/-- Nanoseconds in time.Microsecond. -/
def timeMicrosecond : Int := 1000
/-- Nanoseconds in time.Second. -/
def timeSecond : Int := 1000000000

/-! ### strings.Fields and strings.TrimSpace

The package's still-image renderers build a single space-separated string and
re-tokenize it with strings.Fields; the strings built by the package contain
no whitespace other than the space character, so splitting on spaces is a
faithful model. -/

/-- Accumulator version of strings.Fields over a character list: `cur` holds
the (reversed) characters of the token being read. -/
def fieldsAux (cur : List Char) : List Char → List (List Char)
  | [] => if cur = [] then [] else [cur.reverse]
  | c :: rest =>
    if c = ' ' then (if cur = [] then [] else [cur.reverse]) ++ fieldsAux [] rest
    else fieldsAux (c :: cur) rest

/-- strings.Fields: split around runs of spaces, dropping empty tokens. -/
def goFields (s : String) : List String :=
  (fieldsAux [] s.data).map String.mk

/-- strings.TrimSpace: drop leading and trailing spaces. -/
def goTrimSpace (s : String) : String :=
  String.mk (((s.data.dropWhile (fun c => c = ' ')).reverse.dropWhile
      (fun c => c = ' ')).reverse)

theorem string_data_append (a b : String) : (a ++ b).data = a.data ++ b.data := rfl

/-- Splitting at an explicit space separator splits the field computation. -/
theorem fieldsAux_append_space (a : List Char) (cur : List Char) (b : List Char) :
    fieldsAux cur (a ++ ' ' :: b) = fieldsAux cur a ++ fieldsAux [] b := by
  induction a generalizing cur with
  | nil =>
    simp [fieldsAux]
  | cons c a ih =>
    by_cases hc : c = ' '
    · subst hc
      simp [fieldsAux, ih]
    · simp [fieldsAux, hc, ih]

/-- goFields distributes over concatenation at a space. -/
theorem goFields_append_space (a b : String) :
    goFields (a ++ " " ++ b) = goFields a ++ goFields b := by
  have hdata : (a ++ " " ++ b).data = a.data ++ ' ' :: b.data := by
    simp [string_data_append]
  simp [goFields, hdata, fieldsAux_append_space]

/-- A trailing space does not change the fields. -/
theorem fieldsAux_append_single_space (cur l : List Char) :
    fieldsAux cur (l ++ [' ']) = fieldsAux cur l := by
  have h := fieldsAux_append_space l cur []
  simpa [fieldsAux] using h

/-- Trailing spaces do not change the fields. -/
theorem fieldsAux_append_replicate_space (l : List Char) (n : Nat) :
    fieldsAux [] (l ++ List.replicate n ' ') = fieldsAux [] l := by
  induction n with
  | zero => simp
  | succ n ih =>
    have : List.replicate (n + 1) ' ' = List.replicate n ' ' ++ [' '] := by
      simp [List.replicate_succ']
    rw [this, ← List.append_assoc, fieldsAux_append_single_space, ih]

/-- Leading spaces do not change the fields. -/
theorem fieldsAux_dropWhile_space (l : List Char) :
    fieldsAux [] (l.dropWhile (fun c => c = ' ')) = fieldsAux [] l := by
  induction l with
  | nil => simp
  | cons c rest ih =>
    by_cases hc : c = ' '
    · subst hc
      simpa [List.dropWhile, fieldsAux] using ih
    · simp [List.dropWhile, hc]

/-- strings.TrimSpace does not change the result of strings.Fields. -/
theorem goFields_trimSpace (s : String) : goFields (goTrimSpace s) = goFields s := by
  unfold goFields goTrimSpace
  congr 1
  show fieldsAux [] _ = fieldsAux [] s.data
  set p : Char → Bool := fun c => c = ' ' with hp
  set m : List Char := s.data.dropWhile p with hm
  have hlead : fieldsAux [] m = fieldsAux [] s.data := fieldsAux_dropWhile_space s.data
  have hsplit : m = (m.reverse.dropWhile p).reverse ++ (m.reverse.takeWhile p).reverse := by
    conv_lhs => rw [← List.reverse_reverse m]
    rw [← List.reverse_append, List.takeWhile_append_dropWhile]
  have hspaces : (m.reverse.takeWhile p).reverse =
      List.replicate (m.reverse.takeWhile p).reverse.length ' ' := by
    apply List.eq_replicate_of_mem
    intro b hb
    rw [List.mem_reverse] at hb
    have := List.mem_takeWhile_imp hb
    simpa [hp] using this
  calc fieldsAux [] (m.reverse.dropWhile p).reverse
      = fieldsAux [] ((m.reverse.dropWhile p).reverse ++
          (m.reverse.takeWhile p).reverse) := by
        rw [hspaces, fieldsAux_append_replicate_space]
    _ = fieldsAux [] m := by rw [← hsplit]
    _ = fieldsAux [] s.data := hlead

/-- Appending the empty string is the identity on fields. -/
theorem goFields_append_empty (a : String) : goFields (a ++ "") = goFields a := by
  have : a ++ "" = a := by
    apply String.ext
    simp [string_data_append]
  rw [this]

/-- A piece that is empty or starts with a space splits off in the fields. -/
theorem goFields_append_piece (a b : String)
    (h : b = "" ∨ ∃ r : String, b = " " ++ r) :
    goFields (a ++ b) = goFields a ++ goFields b := by
  rcases h with h | ⟨r, h⟩
  · subst h
    simp [goFields_append_empty, goFields, fieldsAux]
  · subst h
    have hone : goFields (" " ++ r) = goFields r := by
      have hdata : (" " ++ r).data = ' ' :: r.data := by
        simp [string_data_append]
      simp [goFields, hdata, fieldsAux]
    rw [← String.append_assoc, goFields_append_space, hone]

/-! ### Enumerations and their command-line string tables

Each Go enum is a `uint`-valued sequence of `iota` constants; its `String`
method indexes a fixed array by the ordinal. Constructor names follow the Go
constant names; `toNat` is the Go ordinal. A lookup that can be out of range
is modelled with `List.get?` (`none` = Go index-out-of-range panic); for the
tables that cover every declared constant the lookup is total and carries an
in-bounds proof. -/

inductive ExposureMode where
  | ExposureOff | ExposureAuto | ExposureNight | ExposureNightPreview
  | ExposureBacklight | ExposureSpotlight | ExposureSports | ExposureSnow
  | ExposureBeach | ExposureVerylong | ExposureFixedFPS | ExposureAntishake
  | ExposureFireworks
  deriving DecidableEq, Repr

def ExposureMode.toNat : ExposureMode → Nat
  | .ExposureOff => 0
  | .ExposureAuto => 1
  | .ExposureNight => 2
  | .ExposureNightPreview => 3
  | .ExposureBacklight => 4
  | .ExposureSpotlight => 5
  | .ExposureSports => 6
  | .ExposureSnow => 7
  | .ExposureBeach => 8
  | .ExposureVerylong => 9
  | .ExposureFixedFPS => 10
  | .ExposureAntishake => 11
  | .ExposureFireworks => 12

def exposureModes : List String :=
  ["off", "auto", "night", "nightpreview", "backlight", "spotlight", "sports",
   "snow", "beach", "verylong", "fixedfps", "antishake", "fireworks"]

/-- Go method (e ExposureMode) String: `exposureModes[e]`; in range for every
declared constant. -/
def ExposureMode.str (e : ExposureMode) : String :=
  exposureModes.get ⟨e.toNat, by cases e <;> decide⟩

inductive MeteringMode where
  | MeteringAverage | MeteringSpot | MeteringBacklit | MeteringMatrix
  deriving DecidableEq, Repr

def MeteringMode.toNat : MeteringMode → Nat
  | .MeteringAverage => 0
  | .MeteringSpot => 1
  | .MeteringBacklit => 2
  | .MeteringMatrix => 3

def exposureMeteringMode : List String := ["average", "spot", "backlit", "matrix"]

/-- Go method (m MeteringMode) String: `exposureMeteringMode[m]`. -/
def MeteringMode.str (m : MeteringMode) : String :=
  exposureMeteringMode.get ⟨m.toNat, by cases m <;> decide⟩

inductive AWBMode where
  | AWBOff | AWBAuto | AWBSunlight | AWBCloudy | AWBShade | AWBTungsten
  | AWBFluorescent | AWBIncandescent | AWBFlash | AWBHorizon
  deriving DecidableEq, Repr

def AWBMode.toNat : AWBMode → Nat
  | .AWBOff => 0
  | .AWBAuto => 1
  | .AWBSunlight => 2
  | .AWBCloudy => 3
  | .AWBShade => 4
  | .AWBTungsten => 5
  | .AWBFluorescent => 6
  | .AWBIncandescent => 7
  | .AWBFlash => 8
  | .AWBHorizon => 9

def awbModes : List String :=
  ["off", "auto", "sun", "cloud", "shade", "tungsten", "fluorescent",
   "incandescent", "flash", "horizon"]

/-- Go method (a AWBMode) String: `awbModes[a]`. -/
def AWBMode.str (a : AWBMode) : String :=
  awbModes.get ⟨a.toNat, by cases a <;> decide⟩

inductive ImageFX where
  | FXNone | FXNegative | FXSolarize | FXPosterize | FXWhiteboard
  | FXBlackboard | FXSketch | FXDenoise | FXEmboss | FXOilpaint | FXHatch
  | FXGpen | FXPastel | FXWatercolour | FXFilm | FXBlur | FXSaturation
  | FXColourSwap | FXWashedOut | FXPosterise | FXColourPoint | FXColourBalance
  | FXCartoon
  deriving DecidableEq, Repr

def ImageFX.toNat : ImageFX → Nat
  | .FXNone => 0
  | .FXNegative => 1
  | .FXSolarize => 2
  | .FXPosterize => 3
  | .FXWhiteboard => 4
  | .FXBlackboard => 5
  | .FXSketch => 6
  | .FXDenoise => 7
  | .FXEmboss => 8
  | .FXOilpaint => 9
  | .FXHatch => 10
  | .FXGpen => 11
  | .FXPastel => 12
  | .FXWatercolour => 13
  | .FXFilm => 14
  | .FXBlur => 15
  | .FXSaturation => 16
  | .FXColourSwap => 17
  | .FXWashedOut => 18
  | .FXPosterise => 19
  | .FXColourPoint => 20
  | .FXColourBalance => 21
  | .FXCartoon => 22

/-- The table in the source has 20 entries for 23 declared constants: the
strings "posterize", "whiteboard" and "blackboard" are absent. -/
def imageFXModes : List String :=
  ["none", "negative", "solarise", "sketch", "denoise", "emboss", "oilpaint",
   "hatch", "gpen", "pastel", "watercolour", "film", "blur", "saturation",
   "colourswap", "washedout", "posterise", "colourpoint", "colourbalance",
   "cartoon"]

/-- Go method (i ImageFX) String: `imageFXModes[i]`. The lookup can be out of
range, hence `Option` (`none` = panic). -/
def ImageFX.str? (i : ImageFX) : Option String :=
  imageFXModes.get? i.toNat

inductive PreviewMode where
  | PreviewFullscreen | PreviewWindow | PreviewDisabled
  deriving DecidableEq, Repr

def PreviewMode.toNat : PreviewMode → Nat
  | .PreviewFullscreen => 0
  | .PreviewWindow => 1
  | .PreviewDisabled => 2

def previewModes : List String := ["fullscreen", "preview", "nopreview"]

/-- Go method (p PreviewMode) String: `previewModes[p]`. -/
def PreviewMode.str (p : PreviewMode) : String :=
  previewModes.get ⟨p.toNat, by cases p <;> decide⟩

inductive Encoding where
  | EncodingJPEG | EncodingBMP | EncodingGIF | EncodingPNG
  deriving DecidableEq, Repr

def Encoding.toNat : Encoding → Nat
  | .EncodingJPEG => 0
  | .EncodingBMP => 1
  | .EncodingGIF => 2
  | .EncodingPNG => 3

def encodings : List String := ["jpg", "bmp", "gif", "png"]

/-- Go method (s Encoding) String: `encodings[s]`. -/
def Encoding.str (s : Encoding) : String :=
  encodings.get ⟨s.toNat, by cases s <;> decide⟩

/-! ### Camera configuration and its parameter rendering (current sources) -/

/-- ColourFX represents colour effects parameters. -/
structure ColourFX where
  Enabled : Bool
  U : Int
  V : Int
  deriving DecidableEq, Repr

/-- Go method (c ColourFX) String: Sprintf("perc-v:perc-v", c.U, c.V). -/
def ColourFX.str (c : ColourFX) : String :=
  goItoa c.U ++ ":" ++ goItoa c.V

/-- FloatRect (float64 components modelled as exact rationals). -/
structure FloatRect where
  X : Rat
  Y : Rat
  W : Rat
  H : Rat
  deriving DecidableEq, Repr

/-- Go method (r *FloatRect) String: Sprintf with ", " separators. -/
def FloatRect.str (r : FloatRect) : String :=
  goFloatV r.X ++ ", " ++ goFloatV r.Y ++ ", " ++ goFloatV r.W ++ ", " ++ goFloatV r.H

/-- The default RegionOfInterest setup. -/
def defaultRegionOfInterest : FloatRect := { X := 0, Y := 0, W := 1, H := 1 }

/-- Camera represents a camera configuration; ShutterSpeed is a time.Duration
(int64 nanoseconds). -/
structure Camera where
  Sharpness : Int
  Contrast : Int
  Brightness : Int
  Saturation : Int
  ISO : Int
  VideoStabilisation : Bool
  ExposureCompensation : Int
  ExposureMode : ExposureMode
  MeteringMode : MeteringMode
  AWBMode : AWBMode
  ImageEffect : ImageFX
  ColourEffects : ColourFX
  Rotation : Int
  HFlip : Bool
  VFlip : Bool
  RegionOfInterest : FloatRect
  ShutterSpeed : Int
  deriving DecidableEq, Repr

/-- The default Camera setup (unnamed fields take the Go zero value). -/
def defaultCamera : Camera where
  Sharpness := 0
  Contrast := 0
  Brightness := 50
  Saturation := 0
  ISO := 400
  VideoStabilisation := false
  ExposureCompensation := 0
  ExposureMode := .ExposureAuto
  MeteringMode := .MeteringAverage
  AWBMode := .AWBAuto
  ImageEffect := .FXNone
  ColourEffects := { Enabled := false, U := 128, V := 128 }
  Rotation := 0
  HFlip := false
  VFlip := false
  RegionOfInterest := defaultRegionOfInterest
  ShutterSpeed := 0

/-- Method (ps *params) add(xs ...string): append. -/
def paramsAdd (ps : List String) (xs : List String) : List String := ps ++ xs

/-- Method (ps *params) addInt(x string, n int): append flag and Itoa value. -/
def paramsAddInt (ps : List String) (x : String) (n : Int) : List String :=
  ps ++ [x, goItoa n]

/-- Method (ps *params) addInt64(x string, n int64): append flag and value. -/
def paramsAddInt64 (ps : List String) (x : String) (n : Int) : List String :=
  ps ++ [x, goItoa n]

/-- Go method (c *Camera) params() []string, translated clause by clause in
source order (note the duplicated MeteringMode clause and the ColourEffects
clause guarded by Enabled alone, both as in the source). The ImageEffect
clause indexes the 20-entry table and may panic, hence the Option. -/
def Camera.paramsGo (c : Camera) : Option (List String) :=
  let out : List String := []
  let out := if c.Sharpness ≠ defaultCamera.Sharpness then
    paramsAddInt out "--sharpness" c.Sharpness else out
  let out := if c.Contrast ≠ defaultCamera.Contrast then
    paramsAddInt out "--contrast" c.Contrast else out
  let out := if c.Brightness ≠ defaultCamera.Brightness then
    paramsAddInt out "--brightness" c.Brightness else out
  let out := if c.Saturation ≠ defaultCamera.Saturation then
    paramsAddInt out "--saturation" c.Saturation else out
  let out := if c.ISO ≠ defaultCamera.ISO then
    paramsAddInt out "--ISO" c.ISO else out
  let out := if c.VideoStabilisation then
    paramsAdd out ["--vstab"] else out
  let out := if c.ExposureCompensation ≠ defaultCamera.ExposureCompensation then
    paramsAddInt out "--ev" c.ExposureCompensation else out
  let out := if c.ExposureMode ≠ defaultCamera.ExposureMode then
    paramsAdd out ["--exposure", c.ExposureMode.str] else out
  let out := if c.MeteringMode ≠ defaultCamera.MeteringMode then
    paramsAdd out ["--metering", c.MeteringMode.str] else out
  let out := if c.AWBMode ≠ defaultCamera.AWBMode then
    paramsAdd out ["--awb", c.AWBMode.str] else out
  match (if c.ImageEffect ≠ defaultCamera.ImageEffect then
      (c.ImageEffect.str?).map (fun s => ["--imxfx", s]) else some []) with
  | none => none
  | some fx =>
    let out := paramsAdd out fx
    let out := if c.ColourEffects.Enabled then
      paramsAdd out ["--colfx", c.ColourEffects.str] else out
    let out := if c.MeteringMode ≠ defaultCamera.MeteringMode then
      paramsAdd out ["--metering", c.MeteringMode.str] else out
    let out := if c.Rotation ≠ defaultCamera.Rotation then
      paramsAddInt out "--rotation" c.Rotation else out
    let out := if c.HFlip then paramsAdd out ["--hflip"] else out
    let out := if c.VFlip then paramsAdd out ["--vflip"] else out
    let out := if c.RegionOfInterest ≠ defaultCamera.RegionOfInterest then
      paramsAdd out ["--roi", c.RegionOfInterest.str] else out
    let out := if c.ShutterSpeed ≠ defaultCamera.ShutterSpeed then
      paramsAddInt64 out "--shutter" (goQuo c.ShutterSpeed timeMicrosecond) else out
    some out

/-- paramString(c) for a Camera: strings.Join(c.params(), " "). -/
def Camera.stringGo (c : Camera) : Option String :=
  (c.paramsGo).map (String.intercalate " ")

/-- Rect (uint32 components modelled as Nat, only compared and printed). -/
structure Rect where
  X : Nat
  Y : Nat
  Width : Nat
  Height : Nat
  deriving DecidableEq, Repr

/-- Go method (r *Rect) String: Sprintf with ", " separators. -/
def Rect.str (r : Rect) : String :=
  goUtoa r.X ++ ", " ++ goUtoa r.Y ++ ", " ++ goUtoa r.Width ++ ", " ++ goUtoa r.Height

/-- Preview contains the settings for the camera previews. -/
structure Preview where
  Mode : PreviewMode
  Opacity : Int
  Rect : Rect
  deriving DecidableEq, Repr

/-- The default Preview setup. -/
def defaultPreview : Preview where
  Mode := .PreviewFullscreen
  Opacity := 255
  Rect := { X := 0, Y := 0, Width := 1024, Height := 768 }

/-- Go method (p *Preview) params() []string (current source, which calls
p.Mode.String()). Every PreviewMode lookup is in range, so this is total. -/
def Preview.paramsGo (p : Preview) : List String :=
  let out : List String := []
  let out := if p.Mode = .PreviewWindow then
      paramsAdd out ["--" ++ p.Mode.str, p.Rect.str]
    else
      if p.Mode ≠ defaultPreview.Mode then paramsAdd out ["--" ++ p.Mode.str] else out
  let out := if p.Opacity ≠ defaultPreview.Opacity then
    paramsAddInt out "--opacity" p.Opacity else out
  out

/-- paramString(p) for a Preview: strings.Join(p.params(), " "). -/
def Preview.stringGo (p : Preview) : String :=
  String.intercalate " " p.paramsGo

/-! ### BaseStill / Still / StillYUV (string-based rendering, current source) -/

/-- BaseStill: common elements of Still and StillYUV. Timeout is a
time.Duration (int64 nanoseconds). -/
structure BaseStill where
  Timeout : Int
  Width : Int
  Height : Int
  Timelapse : Int
  Camera : Camera
  Preview : Preview
  Command : String
  Args : List String
  deriving DecidableEq, Repr

/-- The default BaseStill setup (Timelapse, Command, Args zero-valued). -/
def defaultBaseStill : BaseStill where
  Timeout := 5 * timeSecond
  Width := 2592
  Height := 1944
  Timelapse := 0
  Camera := defaultCamera
  Preview := defaultPreview
  Command := ""
  Args := []

/-- Still represents the configuration necessary to call raspistill; the Go
struct embeds BaseStill (modelled as field `base`). -/
structure Still where
  base : BaseStill
  Quality : Int
  Raw : Bool
  Encoding : Encoding
  deriving DecidableEq, Repr

/-- The default Still setup. -/
def defaultStill : Still where
  base := defaultBaseStill
  Quality := 85
  Raw := false
  Encoding := .EncodingJPEG

/-- Go method (s *BaseStill) String, translated piece by piece in source
order; note the source compares against defaultStill (not defaultBaseStill)
and renders Timeout in integer milliseconds. The camera rendering may panic
(ImageFX table), hence the Option. -/
def BaseStill.stringGo (s : BaseStill) : Option String :=
  match s.Camera.stringGo with
  | none => none
  | some cam =>
    let output := "--output -"
    let output := if s.Timeout ≠ defaultStill.base.Timeout then
      output ++ (" --timeout " ++ goItoa (goQuo s.Timeout timeMillisecond)) else output
    let output := if s.Width ≠ defaultStill.base.Width then
      output ++ (" --width " ++ goItoa s.Width) else output
    let output := if s.Height ≠ defaultStill.base.Height then
      output ++ (" --height " ++ goItoa s.Height) else output
    let output := output ++ (" " ++ cam)
    let output := output ++ (" " ++ s.Preview.stringGo)
    some (goTrimSpace output)

/-- Go method (s *Still) String. -/
def Still.stringGo (s : Still) : Option String :=
  match s.base.stringGo with
  | none => none
  | some b =>
    let output := b
    let output := if s.Quality ≠ defaultStill.Quality then
      output ++ (" --quality " ++ goItoa s.Quality) else output
    let output := if s.Raw then output ++ " --raw" else output
    let output := if s.Encoding ≠ defaultStill.Encoding then
      output ++ (" --encoding " ++ s.Encoding.str) else output
    some (goTrimSpace output)

/-- Go method (s *Still) Params: append(strings.Fields(s.String()), s.Args...). -/
def Still.Params (s : Still) : Option (List String) :=
  (s.stringGo).map (fun str => goFields str ++ s.base.Args)

/-- StillYUV represents the configuration necessary to call raspiyuv. -/
structure StillYUV where
  base : BaseStill
  UseRGB : Bool
  deriving DecidableEq, Repr

/-- The default StillYUV setup. -/
def defaultStillYUV : StillYUV where
  base := defaultBaseStill
  UseRGB := false

/-- Go method (s *StillYUV) String. -/
def StillYUV.stringGo (s : StillYUV) : Option String :=
  match s.base.stringGo with
  | none => none
  | some b =>
    let output := b
    let output := if s.UseRGB then output ++ " --rgb" else output
    some (goTrimSpace output)

/-- Go method (s *StillYUV) Params: append(strings.Fields(s.String()), s.Args...). -/
def StillYUV.Params (s : StillYUV) : Option (List String) :=
  (s.stringGo).map (fun str => goFields str ++ s.base.Args)

/-! ### Vid (list-based rendering, current vid.go) -/

/-- Vid represents the configuration used to call raspivid. -/
structure Vid where
  Timeout : Int
  Width : Int
  Height : Int
  Bitrate : Int
  Framerate : Int
  IntraPeriod : Int
  ImmutableInput : Bool
  Camera : Camera
  Preview : Preview
  Command : String
  Args : List String
  deriving DecidableEq, Repr

/-- The default Vid setup. -/
def defaultVid : Vid where
  Timeout := 5 * timeSecond
  Width := 1920
  Height := 1080
  Bitrate := 17000000
  Framerate := 30
  IntraPeriod := 0
  ImmutableInput := true
  Camera := defaultCamera
  Preview := defaultPreview
  Command := ""
  Args := []

/-- Go method (v *Vid) params() []string, clause by clause in source order;
the camera part may panic (ImageFX table), hence the Option. -/
def Vid.paramsGo (v : Vid) : Option (List String) :=
  let out := paramsAdd [] ["--output", "-"]
  let out := if v.Timeout ≠ defaultVid.Timeout then
    paramsAddInt64 out "--timeout" (goQuo v.Timeout timeMillisecond) else out
  let out := if v.Width ≠ defaultVid.Width then
    paramsAddInt out "--width" v.Width else out
  let out := if v.Height ≠ defaultVid.Height then
    paramsAddInt out "--height" v.Height else out
  let out := if v.Bitrate ≠ defaultVid.Bitrate then
    paramsAddInt out "--bitrate" v.Bitrate else out
  let out := if v.Framerate ≠ defaultVid.Framerate then
    paramsAddInt out "--framerate" v.Framerate else out
  let out := if v.IntraPeriod ≠ defaultVid.IntraPeriod then
    paramsAddInt out "--intra" v.IntraPeriod else out
  match v.Camera.paramsGo with
  | none => none
  | some cp =>
    let out := paramsAdd out cp
    let out := paramsAdd out v.Preview.paramsGo
    some out

/-- Go method (v *Vid) Params: append(v.params(), v.Args...). -/
def Vid.Params (v : Vid) : Option (List String) :=
  (v.paramsGo).map (fun ps => ps ++ v.Args)

/-! ### Historical Preview.String variants (raspicam.go 305-315 and the middle
snapshot 732-745)

Both variants call `p.String()` on the receiver itself inside their own body
(instead of `p.Mode.String()`), so the recursion never changes its argument.
They are modelled with explicit fuel: `none` means the computation did not
finish within the given fuel; a result independent of the fuel and always
`none` is non-termination. -/

/-- PreviewMode of the historical raspicam.go (different constant order). -/
inductive LegacyPreviewMode where
  | PreviewDisabled | PreviewEnabled | PreviewFullscreen
  deriving DecidableEq, Repr

/-- Preview of the historical raspicam.go. -/
structure LegacyPreview where
  Mode : LegacyPreviewMode
  Opacity : Int
  Rect : Rect
  deriving DecidableEq, Repr

/-- The default Preview of the historical raspicam.go. -/
def legacyDefaultPreview : LegacyPreview where
  Mode := .PreviewFullscreen
  Opacity := 255
  Rect := { X := 0, Y := 0, Width := 1024, Height := 768 }

/-- Go method (p *Preview) String of raspicam.go lines 306-315: when the mode
differs from the default it appends `" " + p.String()` — the method itself,
on the same receiver. -/
def LegacyPreview.stringFuel : Nat → LegacyPreview → Option String
  | 0, _ => none
  | fuel + 1, p =>
    let o1 : Option String :=
      if p.Mode ≠ legacyDefaultPreview.Mode then
        (LegacyPreview.stringFuel fuel p).map (fun s => "" ++ (" " ++ s))
      else some ""
    o1.map (fun output =>
      let output := if p.Opacity ≠ legacyDefaultPreview.Opacity then
        output ++ (" --opacity " ++ goItoa p.Opacity) else output
      goTrimSpace output)

/-- Go method (p *Preview) String of the middle snapshot (part_000 lines
732-745): both the window branch and the non-default branch format
`p.String()` — the method itself, on the same receiver. -/
def Preview.stringRecFuel : Nat → Preview → Option String
  | 0, _ => none
  | fuel + 1, p =>
    let o1 : Option String :=
      if p.Mode = .PreviewWindow then
        (Preview.stringRecFuel fuel p).map
          (fun s => "" ++ (" --" ++ s ++ " " ++ p.Rect.str))
      else
        if p.Mode ≠ defaultPreview.Mode then
          (Preview.stringRecFuel fuel p).map (fun s => "" ++ (" --" ++ s))
        else some ""
    o1.map (fun output =>
      let output := if p.Opacity ≠ defaultPreview.Opacity then
        output ++ (" --opacity " ++ goItoa p.Opacity) else output
      goTrimSpace output)

/-! ### The Capture runner as an event protocol

`Capture(c, w, errCh)` (part_000 lines 373-419) is modelled by the observable
events of one invocation:

* the environment (`CaptureEnv`) fixes every external outcome: whether the
  stdout/stderr pipe acquisitions fail, whether cmd.Start fails, the lines the
  diagnostic scanner reads, a possible scanner transport fault, the bytes
  copied and a possible copy or wait error;
* the main flow and the stderr-scan goroutine each yield a deterministic
  event list; a maximal trace of the invocation is any interleaving of the
  two, subject to the one synchronization in the code: the deferred
  `<-done; close(errCh)` runs only after the scanner's final `close(done)`.

Modelling facts used: sends on errCh are received by the caller (the
channel contract assumed by the code), and on every path on which the
scanner goroutine was spawned its stream eventually yields end-of-input or
an error (os/exec closes the pipes when Start fails and when Wait returns),
so the spawned scanner always reaches `close(done)`. When the goroutine was
never spawned, nothing ever closes `done`, and the main flow can never pass
its `<-done`: a maximal trace then consists of the main flow's events before
the blocked receive. -/

/-- A value sent on the error channel, tagged by its construction site. -/
inductive ErrEv where
  | pipeFail (e : String)
  | startFail (cause : String)
  | diagLine (cmd line : String)
  | scanFault (e : String)
  | copyFault (e : String)
  | waitFail (cause : String)
  deriving DecidableEq, Repr

/-- The Go error text of an error event. -/
def ErrEv.text : ErrEv → String
  | .pipeFail e => e
  | .startFail c => "starting: " ++ c
  | .diagLine cmd l => cmd ++ ": " ++ l
  | .scanFault e => e
  | .copyFault e => e
  | .waitFail c => "waiting: " ++ c

/-- An observable event of one Capture invocation. -/
inductive Event where
  | errEvent (v : ErrEv)
  | sinkWrite (n : Nat)
  | closeDone
  | closeErrCh
  | ret
  deriving DecidableEq, Repr

/-- The external outcomes of one invocation. -/
structure CaptureEnv where
  stdoutPipeErr : Option String
  stderrPipeErr : Option String
  startErr : Option String
  stderrLines : List String
  scanFault : Option String
  copiedBytes : Nat
  copyErr : Option String
  waitErr : Option String
  deriving DecidableEq, Repr

/-- Events of the stderr-scan goroutine (lines 394-403): one errCh send per
scanned line, one more if the scanner ends with a transport error, then
close(done). -/
def scanThreadEvents (cmd : String) (env : CaptureEnv) : List Event :=
  env.stderrLines.map (fun l => Event.errEvent (.diagLine cmd l)) ++
    (match env.scanFault with
     | some e => [Event.errEvent (.scanFault e)]
     | none => []) ++
    [Event.closeDone]

/-- The two threads of one invocation: whether the scan goroutine was
spawned, its events, the main flow's events before the deferred `<-done`,
and the main flow's events after it. -/
structure CaptureBehavior where
  scanSpawned : Bool
  scanEvents : List Event
  mainPre : List Event
  mainPost : List Event
  deriving DecidableEq, Repr

/-- The behavior of Capture (lines 373-419), path by path:
stdout-pipe failure and stderr-pipe failure return before the goroutine is
spawned; start failure returns after spawning it (without registering the
Wait defer); on the full path the main flow copies stdout, then the Wait
defer runs, then the `<-done; close(errCh)` defer. -/
def captureBehavior (cmd : String) (env : CaptureEnv) : CaptureBehavior :=
  match env.stdoutPipeErr with
  | some e =>
    { scanSpawned := false, scanEvents := [],
      mainPre := [Event.errEvent (.pipeFail e)],
      mainPost := [Event.closeErrCh, Event.ret] }
  | none =>
    match env.stderrPipeErr with
    | some e =>
      { scanSpawned := false, scanEvents := [],
        mainPre := [Event.errEvent (.pipeFail e)],
        mainPost := [Event.closeErrCh, Event.ret] }
    | none =>
      match env.startErr with
      | some cause =>
        { scanSpawned := true, scanEvents := scanThreadEvents cmd env,
          mainPre := [Event.errEvent (.startFail cause)],
          mainPost := [Event.closeErrCh, Event.ret] }
      | none =>
        { scanSpawned := true, scanEvents := scanThreadEvents cmd env,
          mainPre := [Event.sinkWrite env.copiedBytes] ++
            (match env.copyErr with
             | some e => [Event.errEvent (.copyFault e)]
             | none => []) ++
            (match env.waitErr with
             | some c => [Event.errEvent (.waitFail c)]
             | none => []),
          mainPost := [Event.closeErrCh, Event.ret] }

/-- Interleaving of two lists: all orderings that preserve each list's own
order. -/
inductive Interleaving : List Event → List Event → List Event → Prop where
  | nil : Interleaving [] [] []
  | left {x : Event} {xs ys zs : List Event} :
      Interleaving xs ys zs → Interleaving (x :: xs) ys (x :: zs)
  | right {y : Event} {xs ys zs : List Event} :
      Interleaving xs ys zs → Interleaving xs (y :: ys) (y :: zs)

/-- A maximal trace of one invocation: if the scanner was spawned, any
interleaving of the two pre-barrier event lists followed by the post-barrier
main events (the barrier `<-done` passes because the spawned scanner's last
event is close(done)); if it was not spawned, the main flow blocks at
`<-done` forever and the trace is exactly its pre-barrier events. -/
def MaximalTrace (b : CaptureBehavior) (t : List Event) : Prop :=
  (b.scanSpawned = true →
    ∃ u, Interleaving b.mainPre b.scanEvents u ∧ t = u ++ b.mainPost) ∧
  (b.scanSpawned = false → t = b.mainPre)

/-- Total bytes delivered to the sink in a trace. -/
def sinkBytes (t : List Event) : Nat :=
  (t.map (fun e => match e with | Event.sinkWrite n => n | _ => 0)).sum

theorem interleaving_mem {a b u : List Event} (h : Interleaving a b u) (x : Event) :
    x ∈ u ↔ x ∈ a ∨ x ∈ b := by
  induction h with
  | nil => simp
  | left h ih =>
    simp only [List.mem_cons, ih]
    tauto
  | right h ih =>
    simp only [List.mem_cons, ih]
    tauto

theorem interleaving_count {a b u : List Event} (h : Interleaving a b u) (x : Event) :
    u.count x = a.count x + b.count x := by
  induction h with
  | nil => simp
  | left h ih =>
    simp only [List.count_cons, ih]
    omega
  | right h ih =>
    simp only [List.count_cons, ih]
    omega

theorem captureBehavior_mainPost (cmd : String) (env : CaptureEnv) :
    (captureBehavior cmd env).mainPost = [Event.closeErrCh, Event.ret] := by
  rcases env with ⟨so, se, st, lines, scf, cb, ce, we⟩
  cases so <;> cases se <;> cases st <;> rfl

theorem closeErrCh_not_mem_mainPre (cmd : String) (env : CaptureEnv) :
    Event.closeErrCh ∉ (captureBehavior cmd env).mainPre := by
  rcases env with ⟨so, se, st, lines, scf, cb, ce, we⟩
  cases so <;> cases se <;> cases st <;> cases ce <;> cases we <;>
    simp [captureBehavior]

theorem ret_not_mem_mainPre (cmd : String) (env : CaptureEnv) :
    Event.ret ∉ (captureBehavior cmd env).mainPre := by
  rcases env with ⟨so, se, st, lines, scf, cb, ce, we⟩
  cases so <;> cases se <;> cases st <;> cases ce <;> cases we <;>
    simp [captureBehavior]

theorem closeErrCh_not_mem_scanEvents (cmd : String) (env : CaptureEnv) :
    Event.closeErrCh ∉ (captureBehavior cmd env).scanEvents := by
  rcases env with ⟨so, se, st, lines, scf, cb, ce, we⟩
  cases so <;> cases se <;> cases st <;> cases scf <;>
    simp [captureBehavior, scanThreadEvents]

theorem ret_not_mem_scanEvents (cmd : String) (env : CaptureEnv) :
    Event.ret ∉ (captureBehavior cmd env).scanEvents := by
  rcases env with ⟨so, se, st, lines, scf, cb, ce, we⟩
  cases so <;> cases se <;> cases st <;> cases scf <;>
    simp [captureBehavior, scanThreadEvents]

theorem closeDone_mem_scanEvents (cmd : String) (env : CaptureEnv)
    (h : (captureBehavior cmd env).scanSpawned = true) :
    Event.closeDone ∈ (captureBehavior cmd env).scanEvents := by
  rcases env with ⟨so, se, st, lines, scf, cb, ce, we⟩
  cases so <;> cases se <;> cases st <;>
    simp_all [captureBehavior, scanThreadEvents]

theorem sinkBytes_eq_zero {t : List Event} (h : ∀ n, Event.sinkWrite n ∉ t) :
    sinkBytes t = 0 := by
  unfold sinkBytes
  apply List.sum_eq_zero
  intro x hx
  simp only [List.mem_map] at hx
  obtain ⟨e, he, hex⟩ := hx
  cases e with
  | sinkWrite n => exact absurd he (h n)
  | errEvent v => exact hex.symm
  | closeDone => exact hex.symm
  | closeErrCh => exact hex.symm
  | ret => exact hex.symm

theorem startFail_count_scanThread (cmd : String) (env : CaptureEnv) (cause : String) :
    (scanThreadEvents cmd env).count (Event.errEvent (ErrEv.startFail cause)) = 0 := by
  unfold scanThreadEvents
  cases env.scanFault <;> simp [List.count_eq_zero]

theorem sinkWrite_not_mem_scanThread (cmd : String) (env : CaptureEnv) (n : Nat) :
    Event.sinkWrite n ∉ scanThreadEvents cmd env := by
  unfold scanThreadEvents
  cases env.scanFault <;> simp

/-- C1: for every invocation of Capture, in every maximal trace the runner
returns exactly when the error channel is closed; when it returns, the trace
ends with close(errCh) followed by the return, close(errCh) happens exactly
once, after the scan activity's close(done) and after every pre-barrier main
event; and the scan activity itself never closes the error channel. -/
theorem capture_close_protocol (cmd : String) (env : CaptureEnv) (t : List Event)
    (h : MaximalTrace (captureBehavior cmd env) t) :
    (Event.ret ∈ t ↔ Event.closeErrCh ∈ t) ∧
    (Event.ret ∈ t →
      ∃ u, Interleaving (captureBehavior cmd env).mainPre
          (captureBehavior cmd env).scanEvents u ∧
        t = u ++ [Event.closeErrCh, Event.ret] ∧
        t.count Event.closeErrCh = 1 ∧
        Event.closeDone ∈ u) ∧
    Event.closeErrCh ∉ (captureBehavior cmd env).scanEvents := by
  obtain ⟨hT, hF⟩ := h
  have hpost := captureBehavior_mainPost cmd env
  have hnc1 := closeErrCh_not_mem_mainPre cmd env
  have hnc2 := closeErrCh_not_mem_scanEvents cmd env
  have hnr1 := ret_not_mem_mainPre cmd env
  have hnr2 := ret_not_mem_scanEvents cmd env
  cases hsp : (captureBehavior cmd env).scanSpawned with
  | true =>
    obtain ⟨u, hu, ht⟩ := hT hsp
    rw [hpost] at ht
    have humem := interleaving_mem hu
    have hcu : Event.closeErrCh ∉ u := by
      rw [humem]
      rintro (hc | hc)
      · exact hnc1 hc
      · exact hnc2 hc
    have hdone : Event.closeDone ∈ u := by
      rw [humem]
      exact Or.inr (closeDone_mem_scanEvents cmd env hsp)
    have hretm : Event.ret ∈ t := by
      rw [ht]; simp
    have hclosem : Event.closeErrCh ∈ t := by
      rw [ht]; simp
    refine ⟨⟨fun _ => hclosem, fun _ => hretm⟩, fun _ => ⟨u, hu, ht, ?_, hdone⟩, hnc2⟩
    rw [ht, List.count_append, List.count_eq_zero.mpr hcu]
    decide
  | false =>
    have ht := hF hsp
    have hrnot : Event.ret ∉ t := by rw [ht]; exact hnr1
    have hcnot : Event.closeErrCh ∉ t := by rw [ht]; exact hnc1
    exact ⟨⟨fun hr => absurd hr hrnot, fun hc => absurd hc hcnot⟩,
      fun hr => absurd hr hrnot, hnc2⟩

/-- Witness for C1 at a concrete successful invocation. -/
theorem capture_close_protocol_witness :
    Event.ret ∈ ([Event.sinkWrite 0, Event.closeDone, Event.closeErrCh,
        Event.ret] : List Event) ↔
    Event.closeErrCh ∈ ([Event.sinkWrite 0, Event.closeDone, Event.closeErrCh,
        Event.ret] : List Event) :=
  (capture_close_protocol "raspistill" ⟨none, none, none, [], none, 0, none, none⟩
    [Event.sinkWrite 0, Event.closeDone, Event.closeErrCh, Event.ret]
    ⟨fun _ => ⟨[Event.sinkWrite 0, Event.closeDone],
      Interleaving.left (Interleaving.right Interleaving.nil), rfl⟩,
     fun hf => absurd hf (by decide)⟩).1

/-- C2 (counter-evidence): when acquiring the stdout pipe fails, Capture
sends the single error event and then blocks forever on the deferred
`<-done` (the goroutine that alone closes `done` was never spawned): every
maximal trace is exactly that one event, with no return and no close of the
error channel. -/
theorem capture_pipe_failure_no_return (t : List Event)
    (h : MaximalTrace (captureBehavior "raspistill"
      ⟨some "pipe error", none, none, [], none, 0, none, none⟩) t) :
    t = [Event.errEvent (ErrEv.pipeFail "pipe error")] ∧
    Event.ret ∉ t ∧ Event.closeErrCh ∉ t := by
  obtain ⟨hT, hF⟩ := h
  have ht := hF (by decide)
  refine ⟨ht.trans (by decide), ?_, ?_⟩ <;> rw [ht] <;> decide

/-- Witness for the C2 evidence theorem at its unique maximal trace. -/
theorem capture_pipe_failure_no_return_witness :
    ([Event.errEvent (ErrEv.pipeFail "pipe error")] : List Event) =
      [Event.errEvent (ErrEv.pipeFail "pipe error")] ∧
    Event.ret ∉ ([Event.errEvent (ErrEv.pipeFail "pipe error")] : List Event) ∧
    Event.closeErrCh ∉ ([Event.errEvent (ErrEv.pipeFail "pipe error")] : List Event) :=
  capture_pipe_failure_no_return [Event.errEvent (ErrEv.pipeFail "pipe error")]
    ⟨fun hs => absurd hs (by decide), fun _ => by decide⟩

/-- C3: when the pipes are acquired but cmd.Start fails, every maximal trace
contains exactly one launch-failure event, whose text is "starting: " plus
the cause; the event precedes the closing of the error channel and the
return, and the sink receives zero bytes. -/
theorem capture_start_failure (cmd cause : String) (env : CaptureEnv)
    (h1 : env.stdoutPipeErr = none) (h2 : env.stderrPipeErr = none)
    (h3 : env.startErr = some cause)
    (t : List Event) (h : MaximalTrace (captureBehavior cmd env) t) :
    t.count (Event.errEvent (ErrEv.startFail cause)) = 1 ∧
    (∃ rest, (ErrEv.startFail cause).text = "starting: " ++ rest) ∧
    (∃ u, t = u ++ [Event.closeErrCh, Event.ret] ∧
      Event.errEvent (ErrEv.startFail cause) ∈ u) ∧
    sinkBytes t = 0 := by
  have hb : captureBehavior cmd env =
      { scanSpawned := true, scanEvents := scanThreadEvents cmd env,
        mainPre := [Event.errEvent (.startFail cause)],
        mainPost := [Event.closeErrCh, Event.ret] } := by
    unfold captureBehavior
    rw [h1, h2, h3]
  rw [hb] at h
  obtain ⟨hT, hF⟩ := h
  obtain ⟨u, hu, ht⟩ := hT rfl
  have humem := interleaving_mem hu
  have hucount := interleaving_count hu (Event.errEvent (.startFail cause))
  refine ⟨?_, ⟨cause, rfl⟩, ⟨u, ht, ?_⟩, ?_⟩
  · rw [ht, List.count_append, hucount, startFail_count_scanThread]
    simp [List.count_cons]
  · rw [humem]
    exact Or.inl (by simp)
  · apply sinkBytes_eq_zero
    intro n hn
    rw [ht] at hn
    rcases List.mem_append.mp hn with hn | hn
    · rcases (humem _).mp hn with hn | hn
      · simp at hn
      · exact sinkWrite_not_mem_scanThread cmd env n hn
    · simp at hn

/-- Witness for C3 at a concrete failed-start invocation. -/
theorem capture_start_failure_witness :
    ([Event.errEvent (ErrEv.startFail "exec: not found"), Event.closeDone,
      Event.closeErrCh, Event.ret] : List Event).count
        (Event.errEvent (ErrEv.startFail "exec: not found")) = 1 :=
  (capture_start_failure "raspistill" "exec: not found"
    ⟨none, none, some "exec: not found", [], none, 0, none, none⟩ rfl rfl rfl
    [Event.errEvent (ErrEv.startFail "exec: not found"), Event.closeDone,
      Event.closeErrCh, Event.ret]
    ⟨fun _ => ⟨[Event.errEvent (ErrEv.startFail "exec: not found"), Event.closeDone],
      Interleaving.left (Interleaving.right Interleaving.nil), rfl⟩,
     fun hf => absurd hf (by decide)⟩).1

/-- C4: for the all-default Still, StillYUV and Vid configurations (extra
Args empty), Params() renders exactly the two tokens ["--output", "-"]. -/
theorem default_params_output_dash :
    Still.Params defaultStill = some ["--output", "-"] ∧
    StillYUV.Params defaultStillYUV = some ["--output", "-"] ∧
    Vid.Params defaultVid = some ["--output", "-"] := by decide

/-- C6: with timeout = 10 s, width = 100, height = 1000 and all else default,
Still, StillYUV and Vid render exactly the eight tokens
output, -, timeout, 10000, width, 100, height, 1000 in that order. -/
theorem basic_params_scenario :
    Still.Params { defaultStill with base := { defaultBaseStill with
        Timeout := 10 * timeSecond, Width := 100, Height := 1000 } } =
      some ["--output", "-", "--timeout", "10000", "--width", "100",
        "--height", "1000"] ∧
    StillYUV.Params { defaultStillYUV with base := { defaultBaseStill with
        Timeout := 10 * timeSecond, Width := 100, Height := 1000 } } =
      some ["--output", "-", "--timeout", "10000", "--width", "100",
        "--height", "1000"] ∧
    Vid.Params { defaultVid with
        Timeout := 10 * timeSecond, Width := 100, Height := 1000 } =
      some ["--output", "-", "--timeout", "10000", "--width", "100",
        "--height", "1000"] := by decide

/-- C9 (counter-evidence): imageFXModes has 20 entries for the 23 declared
ImageFX constants, so the ordinal String lookup is out of range (a panic,
modelled none) for FXColourPoint, FXColourBalance and FXCartoon, and the
in-range constants from FXPosterize onward are shifted onto another effect's
name (FXPosterize yields "sketch", FXSketch yields "oilpaint"). -/
theorem imageFX_string_out_of_range :
    imageFXModes.length = 20 ∧
    ImageFX.toNat .FXCartoon = 22 ∧
    ImageFX.str? .FXColourPoint = none ∧
    ImageFX.str? .FXColourBalance = none ∧
    ImageFX.str? .FXCartoon = none ∧
    ImageFX.str? .FXPosterize = some "sketch" ∧
    ImageFX.str? .FXSketch = some "oilpaint" := by decide

/-- C10 (counter-evidence): both historical Preview.String variants invoke
themselves on an unchanged receiver when the mode is not the default, so the
computation yields no result at any fuel (it never terminates) for a preview
whose mode differs from the default, while the default-mode preview renders
(the empty parameter string) already at fuel 1. -/
theorem legacy_preview_string_diverges :
    (∀ fuel : Nat, LegacyPreview.stringFuel fuel
      { Mode := .PreviewDisabled, Opacity := 255,
        Rect := { X := 0, Y := 0, Width := 1024, Height := 768 } } = none) ∧
    (∀ fuel : Nat, Preview.stringRecFuel fuel
      { Mode := .PreviewWindow, Opacity := 255,
        Rect := { X := 0, Y := 0, Width := 1024, Height := 768 } } = none) ∧
    LegacyPreview.stringFuel 1 legacyDefaultPreview = some "" := by
  refine ⟨?_, ?_, by decide⟩
  · intro fuel
    induction fuel with
    | zero => rfl
    | succ n ih => simp [LegacyPreview.stringFuel, ih, legacyDefaultPreview]
  · intro fuel
    induction fuel with
    | zero => rfl
    | succ n ih => simp [Preview.stringRecFuel, ih]

/-- C5 (counterexample): changing only MeteringMode from the baseline makes
Camera.params emit the metering flag/value pair twice (the clause appears
twice in the source), so the rendering is not the baseline rendering (empty)
with exactly one flag/value pair (two tokens) inserted. -/
theorem camera_metering_rendered_twice :
    Camera.paramsGo { defaultCamera with MeteringMode := .MeteringSpot } =
      some ["--metering", "spot", "--metering", "spot"] ∧
    (Camera.paramsGo { defaultCamera with MeteringMode := .MeteringSpot }).map
      List.length ≠ some 2 := by decide

/-- C5 amended: changing exactly one Camera field from the baseline renders
exactly that field's emission, at its fixed position: a flag/value pair for
value fields, the bare flag for the boolean fields, the pair twice for
MeteringMode (its clause is duplicated), the colfx pair exactly when
ColourEffects.Enabled (its U/V values alone emit nothing), and for
ImageEffect the pair exactly when the effect's table lookup succeeds
(otherwise the rendering panics). -/
theorem camera_params_single_field :
    Camera.paramsGo defaultCamera = some [] ∧
    (∀ v : Int, v ≠ 0 → Camera.paramsGo { defaultCamera with Sharpness := v } =
      some ["--sharpness", goItoa v]) ∧
    (∀ v : Int, v ≠ 0 → Camera.paramsGo { defaultCamera with Contrast := v } =
      some ["--contrast", goItoa v]) ∧
    (∀ v : Int, v ≠ 50 → Camera.paramsGo { defaultCamera with Brightness := v } =
      some ["--brightness", goItoa v]) ∧
    (∀ v : Int, v ≠ 0 → Camera.paramsGo { defaultCamera with Saturation := v } =
      some ["--saturation", goItoa v]) ∧
    (∀ v : Int, v ≠ 400 → Camera.paramsGo { defaultCamera with ISO := v } =
      some ["--ISO", goItoa v]) ∧
    (Camera.paramsGo { defaultCamera with VideoStabilisation := true } =
      some ["--vstab"]) ∧
    (∀ v : Int, v ≠ 0 →
      Camera.paramsGo { defaultCamera with ExposureCompensation := v } =
        some ["--ev", goItoa v]) ∧
    (∀ e : ExposureMode, e ≠ .ExposureAuto →
      Camera.paramsGo { defaultCamera with ExposureMode := e } =
        some ["--exposure", e.str]) ∧
    (∀ m : MeteringMode, m ≠ .MeteringAverage →
      Camera.paramsGo { defaultCamera with MeteringMode := m } =
        some ["--metering", m.str, "--metering", m.str]) ∧
    (∀ a : AWBMode, a ≠ .AWBAuto →
      Camera.paramsGo { defaultCamera with AWBMode := a } =
        some ["--awb", a.str]) ∧
    (∀ i : ImageFX, i ≠ .FXNone →
      Camera.paramsGo { defaultCamera with ImageEffect := i } =
        (ImageFX.str? i).map (fun s => ["--imxfx", s])) ∧
    (∀ cfx : ColourFX, cfx ≠ defaultCamera.ColourEffects →
      Camera.paramsGo { defaultCamera with ColourEffects := cfx } =
        some (if cfx.Enabled then ["--colfx", cfx.str] else [])) ∧
    (∀ v : Int, v ≠ 0 → Camera.paramsGo { defaultCamera with Rotation := v } =
      some ["--rotation", goItoa v]) ∧
    (Camera.paramsGo { defaultCamera with HFlip := true } = some ["--hflip"]) ∧
    (Camera.paramsGo { defaultCamera with VFlip := true } = some ["--vflip"]) ∧
    (∀ r : FloatRect, r ≠ defaultRegionOfInterest →
      Camera.paramsGo { defaultCamera with RegionOfInterest := r } =
        some ["--roi", r.str]) ∧
    (∀ d : Int, d ≠ 0 → Camera.paramsGo { defaultCamera with ShutterSpeed := d } =
      some ["--shutter", goItoa (goQuo d timeMicrosecond)]) := by
  refine ⟨by decide, ?_, ?_, ?_, ?_, ?_, by decide, ?_, ?_, ?_, ?_, ?_, ?_, ?_,
    by decide, by decide, ?_, ?_⟩
  · intro v hv
    simp [Camera.paramsGo, defaultCamera, paramsAdd, paramsAddInt, paramsAddInt64, hv]
  · intro v hv
    simp [Camera.paramsGo, defaultCamera, paramsAdd, paramsAddInt, paramsAddInt64, hv]
  · intro v hv
    simp [Camera.paramsGo, defaultCamera, paramsAdd, paramsAddInt, paramsAddInt64, hv]
  · intro v hv
    simp [Camera.paramsGo, defaultCamera, paramsAdd, paramsAddInt, paramsAddInt64, hv]
  · intro v hv
    simp [Camera.paramsGo, defaultCamera, paramsAdd, paramsAddInt, paramsAddInt64, hv]
  · intro v hv
    simp [Camera.paramsGo, defaultCamera, paramsAdd, paramsAddInt, paramsAddInt64, hv]
  · intro e he
    simp [Camera.paramsGo, defaultCamera, paramsAdd, paramsAddInt, paramsAddInt64, he]
  · intro m hm
    simp [Camera.paramsGo, defaultCamera, paramsAdd, paramsAddInt, paramsAddInt64, hm]
  · intro a ha
    simp [Camera.paramsGo, defaultCamera, paramsAdd, paramsAddInt, paramsAddInt64, ha]
  · intro i hi
    cases hfx : ImageFX.str? i <;>
      simp [Camera.paramsGo, defaultCamera, paramsAdd, paramsAddInt,
        paramsAddInt64, hi, hfx]
  · intro cfx _
    rcases cfx with ⟨en, u, w⟩
    cases en <;>
      simp [Camera.paramsGo, defaultCamera, paramsAdd, paramsAddInt, paramsAddInt64]
  · intro v hv
    simp [Camera.paramsGo, defaultCamera, paramsAdd, paramsAddInt, paramsAddInt64, hv]
  · intro r hr
    have hr2 : r ≠ { X := 0, Y := 0, W := 1, H := 1 } := by
      simpa [defaultRegionOfInterest] using hr
    simp [Camera.paramsGo, defaultCamera, paramsAdd, paramsAddInt, paramsAddInt64,
      defaultRegionOfInterest, hr2]
  · intro d hd
    simp [Camera.paramsGo, defaultCamera, paramsAdd, paramsAddInt, paramsAddInt64, hd]

/-- Witness for the amended C5 at the duplicated MeteringMode clause. -/
theorem camera_params_single_field_witness :
    Camera.paramsGo { defaultCamera with MeteringMode := .MeteringSpot } =
      some ["--metering", MeteringMode.str .MeteringSpot,
        "--metering", MeteringMode.str .MeteringSpot] :=
  (camera_params_single_field).2.2.2.2.2.2.2.2.2.1 .MeteringSpot (by decide)

/-! ### Sectioned views of the renderers, for the composition law -/

theorem string_empty_append (a : String) : "" ++ a = a :=
  String.ext rfl

theorem string_append_empty (a : String) : a ++ "" = a :=
  String.ext (by simp [string_data_append])

theorem goFields_space_append (r : String) : goFields (" " ++ r) = goFields r := by
  have hdata : (" " ++ r).data = ' ' :: r.data := by
    simp [string_data_append]
  simp [goFields, hdata, fieldsAux]

/-- Pulling a conditional suffix out of a conditional append. -/
theorem string_ite_append (c : Prop) [Decidable c] (o p : String) :
    (if c then o ++ p else o) = o ++ (if c then p else "") := by
  split
  · rfl
  · exact (string_append_empty o).symm

/-- goFields splits off a suffix whose characters start with a space (or
which is empty), stated on the underlying data. -/
theorem goFields_append_pieceD (a b : String)
    (h : b.data = [] ∨ ∃ rest, b.data = ' ' :: rest) :
    goFields (a ++ b) = goFields a ++ goFields b := by
  apply goFields_append_piece
  rcases h with h | ⟨rest, h⟩
  · exact Or.inl (String.ext h)
  · exact Or.inr ⟨String.mk rest, String.ext (by rw [h]; rfl)⟩

/-- A conditional piece whose positive branch starts with a space. -/
theorem ite_space_piece (c : Prop) [Decidable c] (p : String) (rest : List Char)
    (hp : p.data = ' ' :: rest) :
    ((if c then p else "") : String).data = [] ∨
      ∃ r, ((if c then p else "") : String).data = ' ' :: r := by
  split
  · exact Or.inr ⟨rest, hp⟩
  · exact Or.inl rfl

/-- Concatenating two pieces that are empty or space-led yields another. -/
theorem append_space_piece (a b : String)
    (ha : a.data = [] ∨ ∃ r, a.data = ' ' :: r)
    (hb : b.data = [] ∨ ∃ r, b.data = ' ' :: r) :
    (a ++ b).data = [] ∨ ∃ r, (a ++ b).data = ' ' :: r := by
  rw [string_data_append]
  rcases ha with ha | ⟨r, ha⟩
  · rw [ha]
    simpa using hb
  · exact Or.inr ⟨r ++ b.data, by rw [ha]; rfl⟩

/-- The BaseStill-specific section of BaseStill.String: the pieces appended
before the camera and preview strings, written as explicit concatenation. -/
def BaseStill.ownString (s : BaseStill) : String :=
  "--output -" ++
  (if s.Timeout ≠ defaultStill.base.Timeout then
    " --timeout " ++ goItoa (goQuo s.Timeout timeMillisecond) else "") ++
  (if s.Width ≠ defaultStill.base.Width then " --width " ++ goItoa s.Width else "") ++
  (if s.Height ≠ defaultStill.base.Height then " --height " ++ goItoa s.Height else "")

/-- The Still-specific section (quality, raw, encoding pieces). -/
def Still.ownString (s : Still) : String :=
  (if s.Quality ≠ defaultStill.Quality then " --quality " ++ goItoa s.Quality else "") ++
  (if s.Raw then " --raw" else "") ++
  (if s.Encoding ≠ defaultStill.Encoding then " --encoding " ++ s.Encoding.str else "")

/-- The StillYUV-specific section. -/
def StillYUV.ownString (s : StillYUV) : String :=
  if s.UseRGB then " --rgb" else ""

/-- The Vid-specific leading tokens of Vid.params (output and the numeric
options, before the camera and preview sections). -/
def Vid.ownTokens (v : Vid) : List String :=
  let out := paramsAdd [] ["--output", "-"]
  let out := if v.Timeout ≠ defaultVid.Timeout then
    paramsAddInt64 out "--timeout" (goQuo v.Timeout timeMillisecond) else out
  let out := if v.Width ≠ defaultVid.Width then
    paramsAddInt out "--width" v.Width else out
  let out := if v.Height ≠ defaultVid.Height then
    paramsAddInt out "--height" v.Height else out
  let out := if v.Bitrate ≠ defaultVid.Bitrate then
    paramsAddInt out "--bitrate" v.Bitrate else out
  let out := if v.Framerate ≠ defaultVid.Framerate then
    paramsAddInt out "--framerate" v.Framerate else out
  let out := if v.IntraPeriod ≠ defaultVid.IntraPeriod then
    paramsAddInt out "--intra" v.IntraPeriod else out
  out

theorem still_ownString_shape (s : Still) :
    (s.ownString).data = [] ∨ ∃ r, (s.ownString).data = ' ' :: r := by
  unfold Still.ownString
  apply append_space_piece
  · apply append_space_piece
    · exact ite_space_piece _ _ _ rfl
    · exact ite_space_piece _ _ _ rfl
  · exact ite_space_piece _ _ _ rfl

theorem stillYUV_ownString_shape (s : StillYUV) :
    (s.ownString).data = [] ∨ ∃ r, (s.ownString).data = ' ' :: r := by
  unfold StillYUV.ownString
  exact ite_space_piece _ _ _ rfl

theorem baseStill_stringGo_eq (s : BaseStill) (cs : String)
    (h : s.Camera.stringGo = some cs) :
    s.stringGo = some (goTrimSpace (s.ownString ++ (" " ++ cs) ++
      (" " ++ s.Preview.stringGo))) := by
  unfold BaseStill.stringGo BaseStill.ownString
  rw [h]
  simp only [string_ite_append]

theorem still_stringGo_eq (s : Still) (cs : String)
    (h : s.base.Camera.stringGo = some cs) :
    s.stringGo = some (goTrimSpace (goTrimSpace (s.base.ownString ++ (" " ++ cs) ++
      (" " ++ s.base.Preview.stringGo)) ++ s.ownString)) := by
  unfold Still.stringGo Still.ownString
  rw [baseStill_stringGo_eq s.base cs h]
  simp only [string_ite_append]
  simp only [String.append_assoc, string_empty_append]

theorem stillYUV_stringGo_eq (s : StillYUV) (cs : String)
    (h : s.base.Camera.stringGo = some cs) :
    s.stringGo = some (goTrimSpace (goTrimSpace (s.base.ownString ++ (" " ++ cs) ++
      (" " ++ s.base.Preview.stringGo)) ++ s.ownString)) := by
  unfold StillYUV.stringGo StillYUV.ownString
  rw [baseStill_stringGo_eq s.base cs h]
  simp only [string_ite_append]

theorem vid_paramsGo_eq (v : Vid) (cp : List String)
    (h : v.Camera.paramsGo = some cp) :
    v.paramsGo = some (v.ownTokens ++ cp ++ v.Preview.paramsGo) := by
  unfold Vid.paramsGo Vid.ownTokens
  rw [h]
  simp [paramsAdd, List.append_assoc]

/-- C7: the rendered token sequence of each composite configuration is the
concatenation of its sections in the fixed source order — the type's own
capture parameters, the camera section, the preview section (for Still and
StillYUV the type-specific quality/raw/encoding resp. rgb pieces follow the
preview section), with the user-supplied Args appended verbatim and
unconditionally last. For the string-rendered Still/StillYUV the sections
contribute their strings.Fields tokenizations. -/
theorem params_composition :
    (∀ (v : Vid) (cp : List String), v.Camera.paramsGo = some cp →
      Vid.Params v = some (v.ownTokens ++ cp ++ v.Preview.paramsGo ++ v.Args)) ∧
    (∀ (s : Still) (cs : String), s.base.Camera.stringGo = some cs →
      Still.Params s = some (goFields s.base.ownString ++ goFields cs ++
        goFields s.base.Preview.stringGo ++ goFields s.ownString ++ s.base.Args)) ∧
    (∀ (s : StillYUV) (cs : String), s.base.Camera.stringGo = some cs →
      StillYUV.Params s = some (goFields s.base.ownString ++ goFields cs ++
        goFields s.base.Preview.stringGo ++ goFields s.ownString ++ s.base.Args)) := by
  refine ⟨?_, ?_, ?_⟩
  · intro v cp h
    unfold Vid.Params
    rw [vid_paramsGo_eq v cp h, Option.map_some']
  · intro s cs h
    unfold Still.Params
    rw [still_stringGo_eq s cs h, Option.map_some']
    refine congrArg some ?_
    rw [goFields_trimSpace,
      goFields_append_pieceD _ _ (still_ownString_shape s),
      goFields_trimSpace,
      goFields_append_pieceD _ (" " ++ s.base.Preview.stringGo)
        (Or.inr ⟨(s.base.Preview.stringGo).data, rfl⟩),
      goFields_append_pieceD _ (" " ++ cs) (Or.inr ⟨cs.data, rfl⟩),
      goFields_space_append, goFields_space_append]
  · intro s cs h
    unfold StillYUV.Params
    rw [stillYUV_stringGo_eq s cs h, Option.map_some']
    refine congrArg some ?_
    rw [goFields_trimSpace,
      goFields_append_pieceD _ _ (stillYUV_ownString_shape s),
      goFields_trimSpace,
      goFields_append_pieceD _ (" " ++ s.base.Preview.stringGo)
        (Or.inr ⟨(s.base.Preview.stringGo).data, rfl⟩),
      goFields_append_pieceD _ (" " ++ cs) (Or.inr ⟨cs.data, rfl⟩),
      goFields_space_append, goFields_space_append]

/-- Witness for C7 at the default Vid. -/
theorem params_composition_witness :
    Vid.Params defaultVid = some (Vid.ownTokens defaultVid ++ [] ++
      Preview.paramsGo defaultVid.Preview ++ defaultVid.Args) :=
  (params_composition).1 defaultVid [] (by decide)

/-- C8 (counterexample): a 1.5 ms (1500000 ns) shutter speed renders its
value as "1500" — integer microseconds — not as the truncated-milliseconds
value "1" the claim requires. -/
theorem shutter_rendered_microseconds :
    Camera.paramsGo { defaultCamera with ShutterSpeed := 1500000 } =
      some ["--shutter", "1500"] ∧
    Camera.paramsGo { defaultCamera with ShutterSpeed := 1500000 } ≠
      some ["--shutter", goItoa (goQuo 1500000 timeMillisecond)] := by decide

/-- C8 amended: the Timeout durations of Vid and of the still commands are
rendered as base-10 integer milliseconds (truncating any finer precision,
as the concrete 10.5 ms case shows), while Camera.ShutterSpeed is rendered
as base-10 integer microseconds (truncating). -/
theorem durations_rendered :
    (∀ d : Int, d ≠ defaultVid.Timeout →
      Vid.Params { defaultVid with Timeout := d } =
        some ["--output", "-", "--timeout", goItoa (goQuo d timeMillisecond)]) ∧
    (∀ d : Int, d ≠ 0 →
      Camera.paramsGo { defaultCamera with ShutterSpeed := d } =
        some ["--shutter", goItoa (goQuo d timeMicrosecond)]) ∧
    (∀ d : Int, d ≠ defaultStill.base.Timeout →
      Still.Params { defaultStill with base :=
          { defaultBaseStill with Timeout := d } } =
        some (goFields ("--output -" ++
          (" --timeout " ++ goItoa (goQuo d timeMillisecond))))) ∧
    Still.Params { defaultStill with base :=
        { defaultBaseStill with Timeout := 10500000 } } =
      some ["--output", "-", "--timeout", "10"] := by
  refine ⟨?_, ?_, ?_, by decide⟩
  · intro d hd
    have hc : Camera.paramsGo defaultCamera = some [] := by decide
    have hp : Preview.paramsGo defaultPreview = [] := by decide
    simp [defaultVid, timeSecond] at hd
    simp [Vid.Params, Vid.paramsGo, paramsAdd, paramsAddInt, paramsAddInt64,
      defaultVid, timeSecond, hd, hc, hp]
  · intro d hd
    simp [Camera.paramsGo, defaultCamera, paramsAdd, paramsAddInt,
      paramsAddInt64, hd]
  · intro d hd
    have hc : Camera.stringGo defaultCamera = some "" := by decide
    have hprev : Preview.stringGo defaultPreview = "" := by decide
    unfold Still.Params
    rw [still_stringGo_eq _ "" hc, Option.map_some']
    refine congrArg some ?_
    rw [show ({ defaultStill with base := { defaultBaseStill with Timeout := d } }
        : Still).base.Args = [] from rfl, List.append_nil]
    rw [show Still.ownString { defaultStill with base :=
        { defaultBaseStill with Timeout := d } } = "" from by
      simp [Still.ownString, defaultStill]]
    rw [string_append_empty, goFields_trimSpace]
    rw [show ({ defaultStill with base := { defaultBaseStill with Timeout := d } }
        : Still).base = { defaultBaseStill with Timeout := d } from rfl]
    rw [show ({ defaultBaseStill with Timeout := d } : BaseStill).Preview =
        defaultPreview from rfl]
    rw [hprev, string_append_empty]
    rw [goFields_trimSpace]
    rw [goFields_append_pieceD _ " " (Or.inr ⟨[], rfl⟩)]
    rw [goFields_append_pieceD _ " " (Or.inr ⟨[], rfl⟩)]
    rw [show goFields " " = [] from rfl]
    rw [List.append_nil, List.append_nil]
    simp [defaultStill, defaultBaseStill, timeSecond] at hd
    rw [show BaseStill.ownString { defaultBaseStill with Timeout := d } =
        "--output -" ++ (" --timeout " ++ goItoa (goQuo d timeMillisecond)) from by
      simp [BaseStill.ownString, defaultStill, defaultBaseStill, timeSecond, hd,
        string_append_empty]]

/-- Witness for the amended C8 at a 10.5 ms Vid timeout. -/
theorem durations_rendered_witness :
    Vid.Params { defaultVid with Timeout := 10500000 } =
      some ["--output", "-", "--timeout", goItoa (goQuo 10500000 timeMillisecond)] :=
  (durations_rendered).1 10500000 (by decide)
